import Mathlib

/-!
Shallow embedding of `src/pulumi/containers/ecs_service.py` (class `ECSService`),
the deployment assembler of this repository.  The Python code is a single-pass
declarative construction: it instantiates provider resource objects (security
groups, load balancer, target group, listener, RDS store, repository, log
group, cluster, task definition, service) with parameter dictionaries and
wires their asynchronously-resolved identifiers together.

The embedding renders each resource constructor call as a node of a resource
graph (`Resource`), in declaration order.  Provider-assigned identifiers
(`lb_sg.id`, `django_tg.arn`, ...) are modelled symbolically by `Ref`, which
names the referenced resource by its logical name: the Python code never
inspects these values, it only threads them into other resources' arguments.
Pulumi `Output` values (the image URI, the log-group name, the database host)
are modelled as functions from a resolution state to `Option`: `none` while
unresolved, as is `pulumi.Output.all ... .apply` (the join combinator).
`json.dumps` serialises the container-definition document; the claims are
about the document's structure, so the embedding keeps the structured value
(`JsonVal`) that the Python code passes to `json.dumps`.
-/

/-- Configuration of the backend, as read from `django_srv_cfg.backend_cfg`
(fields observed at their use sites in `ecs_service.py`; the schema module
`input_schemas` is not under `src/`). -/
structure BackendCfg where
  container_port : Int
  lb_port : Int
  cpu : Nat
  memory : Nat
  desired_count : Nat
deriving DecidableEq, Repr

/-- The desired-state input `DjangoServiceCfg` (spec: ServiceConfig). -/
structure DjangoServiceCfg where
  service_name : String
  django_project : String
  backend_cfg : BackendCfg
deriving DecidableEq, Repr

/-- Subnet kinds, from `input_schemas.SubnetType`. -/
inductive SubnetType where
  | PUBLIC
  | PRIVATE
deriving DecidableEq, Repr

/-- The external network collaborator: exposes a VPC id and subnet ids. -/
structure Networking where
  vpc_id : String
  public_subnet_ids : List String
  private_subnet_ids : List String
deriving DecidableEq, Repr

def Networking.get_vpc_id (nw : Networking) : String :=
  nw.vpc_id

def Networking.get_subnet_ids (nw : Networking) : SubnetType → List String
  | SubnetType.PUBLIC => nw.public_subnet_ids
  | SubnetType.PRIVATE => nw.private_subnet_ids

/-- Symbolic provider-assigned identifier of another resource, by the
logical name under which that resource was declared (`lb_sg.id`,
`django_lb.arn`, `django_tg.arn`, `ecs_cluster.id`, ...). -/
inductive Ref where
  | sgId (logical_name : String)
  | lbArn (logical_name : String)
  | tgArn (logical_name : String)
  | taskDefArn (logical_name : String)
  | clusterId (logical_name : String)
  | repoRef (logical_name : String)
deriving DecidableEq, Repr

/-- JSON documents, as built by the Python dict/list literals. -/
inductive JsonVal where
  | str (s : String)
  | num (n : Int)
  | bool (b : Bool)
  | arr (elems : List JsonVal)
  | obj (fields : List (String × JsonVal))

/-- Resolution state of the asynchronously-provisioned values that feed
`pulumi.Output.all` in `create_ecs_service`: `none` means not yet resolved. -/
structure ResState where
  image_uri : Option String
  log_group_name : Option String
  db_host : Option String
deriving DecidableEq, Repr

/-- A Pulumi `Output`: a value readable only once the resolution state
provides it. -/
def Output (α : Type) : Type :=
  ResState → Option α

/-- Python's `SERVICE_NAME.replace("_", "-")` (single-character pattern). -/
def replaceUnderscore (s : String) : String :=
  String.mk (s.data.map (fun c => if c = '_' then '-' else c))

structure SecurityGroupIngressArgs where
  from_port : Int
  to_port : Int
  protocol : String
  cidr_blocks : List String
  security_groups : List Ref
deriving DecidableEq, Repr

structure SecurityGroupEgressArgs where
  from_port : Int
  to_port : Int
  protocol : String
  cidr_blocks : List String
  security_groups : List Ref
deriving DecidableEq, Repr

structure SecurityGroupArgs where
  name : String
  description : String
  vpc_id : String
  ingress : List SecurityGroupIngressArgs
  egress : List SecurityGroupEgressArgs
  tags : List (String × String)
deriving DecidableEq, Repr

structure LoadBalancerArgs where
  name : String
  load_balancer_type : String
  internal : Bool
  security_groups : List Ref
  subnets : List String
deriving DecidableEq, Repr

structure TargetGroupHealthCheckArgs where
  path : String
  port : String
  healthy_threshold : Nat
  unhealthy_threshold : Nat
  timeout : Nat
  interval : Nat
  matcher : String
deriving DecidableEq, Repr

structure TargetGroupArgs where
  name : String
  port : Int
  protocol : String
  vpc_id : String
  target_type : String
  health_check : TargetGroupHealthCheckArgs
deriving DecidableEq, Repr

structure ListenerDefaultActionArgs where
  action_type : String
  target_group_arn : Ref
deriving DecidableEq, Repr

structure ListenerArgs where
  load_balancer_arn : Ref
  port : Int
  default_actions : List ListenerDefaultActionArgs
deriving DecidableEq, Repr

structure LogGroupArgs where
  name : String
  retention_in_days : Nat
deriving DecidableEq, Repr

structure ClusterArgs where
  name : String
deriving DecidableEq, Repr

structure TaskDefinitionArgs where
  family : String
  network_mode : String
  requires_compatibilities : List String
  cpu : Nat
  memory : Nat
  execution_role_arn : String
  task_role_arn : String
  container_definitions : Output JsonVal

structure ServiceNetworkConfigurationArgs where
  subnets : List String
  security_groups : List Ref
  assign_public_ip : Bool
deriving DecidableEq, Repr

structure ServiceLoadBalancerArgs where
  target_group_arn : Ref
  container_name : String
  container_port : Int
deriving DecidableEq, Repr

structure ServiceArgs where
  name : String
  cluster : Ref
  task_definition : Ref
  launch_type : String
  desired_count : Nat
  network_configuration : ServiceNetworkConfigurationArgs
  load_balancers : List ServiceLoadBalancerArgs

/-- One declared node of the resource graph, in the order `ECSService`
declares them.  `rdsInstance` is the opaque external data-store collaborator
(`dbs.rds.RDS`), recorded with the arguments the assembler hands it;
`imagePush` records the `Image(...).push_image(version)` call. -/
inductive Resource where
  | securityGroup (logical_name : String) (args : SecurityGroupArgs)
  | loadBalancer (logical_name : String) (args : LoadBalancerArgs)
  | targetGroup (logical_name : String) (args : TargetGroupArgs)
  | listener (logical_name : String) (args : ListenerArgs)
  | rdsInstance (service_sg : Ref) (cfg : DjangoServiceCfg)
  | repository (logical_name : String)
  | imagePush (service_name : String) (django_project : String) (repo : Ref)
      (version_tag : String)
  | logGroup (logical_name : String) (args : LogGroupArgs)
  | cluster (logical_name : String) (args : ClusterArgs)
  | taskDefinition (logical_name : String) (args : TaskDefinitionArgs)
  | service (logical_name : String) (args : ServiceArgs)

/-- The single-container JSON document built inside the `.apply` lambda of
`container_definitions_template` (`ecs_service.py` lines 155-190): the value
the Python code hands to `json.dumps`. -/
def containerDefsJson (cfg : DjangoServiceCfg)
    (image_uri log_group_name host : String) : JsonVal :=
  JsonVal.arr
    [JsonVal.obj
      [("name", JsonVal.str cfg.service_name),
       ("image", JsonVal.str image_uri),
       ("essential", JsonVal.bool true),
       ("cpu", JsonVal.num 10),
       ("memory", JsonVal.num 512),
       ("portMappings",
         JsonVal.arr
           [JsonVal.obj
             [("containerPort", JsonVal.num cfg.backend_cfg.container_port),
              ("protocol", JsonVal.str "tcp")]]),
       ("command",
         JsonVal.arr
           [JsonVal.str cfg.service_name,
            JsonVal.str (toString cfg.backend_cfg.container_port)]),
       ("environment",
         JsonVal.arr
           [JsonVal.obj
             [("name", JsonVal.str "ENVIRONMENT"),
              ("value", JsonVal.str "PROD")],
            JsonVal.obj
             [("name", JsonVal.str "DB_HOST"),
              ("value", JsonVal.str host)]]),
       ("logConfiguration",
         JsonVal.obj
           [("logDriver", JsonVal.str "awslogs"),
            ("options",
              JsonVal.obj
                [("awslogs-group", JsonVal.str log_group_name),
                 ("awslogs-region", JsonVal.str "eu-west-1"),
                 ("awslogs-stream-prefix",
                   JsonVal.str (cfg.service_name ++ "-log-stream"))])])]]

/-- The join `pulumi.Output.all(image_uri=..., log_group_name=..., host=...)`:
available only once all three inputs have resolved. -/
def outputAll3 : Output (String × String × String) :=
  fun s =>
    match s.image_uri, s.log_group_name, s.db_host with
    | some i, some l, some h => some (i, l, h)
    | _, _, _ => none

/-- `Output.apply`: map a function over a deferred value. -/
def outputApply {α β : Type} (o : Output α) (f : α → β) : Output β :=
  fun s => (o s).map f

/-- `container_definitions_template` (`ecs_service.py` lines 150-191):
`pulumi.Output.all(...).apply(lambda args: json.dumps([...]))`, with the
document kept structured. -/
def container_definitions_template (cfg : DjangoServiceCfg) : Output JsonVal :=
  outputApply outputAll3
    (fun args => containerDefsJson cfg args.1 args.2.1 args.2.2)

/-- `ECSService.create_networking` (lines 30-123): the five networking
resources, in declaration order. -/
def create_networking (nw : Networking) (cfg : DjangoServiceCfg) :
    List Resource :=
  let SERVICE_NAME := replaceUnderscore cfg.service_name
  let LB_PORT := cfg.backend_cfg.lb_port
  [Resource.securityGroup (SERVICE_NAME ++ "-lb-sg")
    { name := SERVICE_NAME ++ "-lb-sg",
      description := "Controls access to the ALB",
      vpc_id := nw.get_vpc_id,
      ingress :=
        [{ from_port := LB_PORT, to_port := LB_PORT, protocol := "tcp",
           cidr_blocks := ["0.0.0.0/0"], security_groups := [] }],
      egress :=
        [{ from_port := 0, to_port := 0, protocol := "-1",
           cidr_blocks := ["0.0.0.0/0"], security_groups := [] }],
      tags := [("Name", SERVICE_NAME ++ "-lb-sg")] },
   Resource.securityGroup (SERVICE_NAME ++ "-sg")
    { name := SERVICE_NAME ++ "-ecs-sg",
      description := "Controls access to the ECS Service",
      vpc_id := nw.get_vpc_id,
      ingress :=
        [{ from_port := 0, to_port := 0, protocol := "-1",
           cidr_blocks := [],
           security_groups := [Ref.sgId (SERVICE_NAME ++ "-lb-sg")] }],
      egress :=
        [{ from_port := 0, to_port := 0, protocol := "-1",
           cidr_blocks := ["0.0.0.0/0"], security_groups := [] }],
      tags := [("Name", SERVICE_NAME ++ "-ecs-sg")] },
   Resource.loadBalancer (SERVICE_NAME ++ "-lb")
    { name := SERVICE_NAME ++ "-lb",
      load_balancer_type := "application",
      internal := false,
      security_groups := [Ref.sgId (SERVICE_NAME ++ "-lb-sg")],
      subnets := nw.get_subnet_ids SubnetType.PUBLIC },
   Resource.targetGroup (SERVICE_NAME ++ "-service-tg")
    { name := SERVICE_NAME ++ "-service-tg",
      port := LB_PORT,
      protocol := "HTTP",
      vpc_id := nw.get_vpc_id,
      target_type := "ip",
      health_check :=
        { path := "/ping/", port := "traffic-port",
          healthy_threshold := 5, unhealthy_threshold := 2,
          timeout := 2, interval := 5, matcher := "200" } },
   Resource.listener (SERVICE_NAME ++ "-lb-listener")
    { load_balancer_arn := Ref.lbArn (SERVICE_NAME ++ "-lb"),
      port := LB_PORT,
      default_actions :=
        [{ action_type := "forward",
           target_group_arn := Ref.tgArn (SERVICE_NAME ++ "-service-tg") }] }]

/-- `ECSService.create_db` (lines 125-126): delegates to the external RDS
collaborator, handing it the service security group and the config. -/
def create_db (ecs_sg : Ref) (cfg : DjangoServiceCfg) : List Resource :=
  [Resource.rdsInstance ecs_sg cfg]

/-- `ECSService.create_ecs_service` (lines 128-228).  `ecs_sg` and
`django_tg` are the identifiers stored on `self` by `create_networking`. -/
def create_ecs_service (nw : Networking) (roles : String → String)
    (cfg : DjangoServiceCfg) (ecs_sg django_tg : Ref) : List Resource :=
  let SERVICE_NAME := cfg.service_name
  let CONT_PORT := cfg.backend_cfg.container_port
  [Resource.repository (SERVICE_NAME ++ "-repository"),
   Resource.imagePush SERVICE_NAME cfg.django_project
     (Ref.repoRef (SERVICE_NAME ++ "-repository")) "0.0.1",
   Resource.logGroup (SERVICE_NAME ++ "-log-group")
     { name := "/ecs/" ++ SERVICE_NAME, retention_in_days := 30 },
   Resource.cluster (SERVICE_NAME ++ "-cluster")
     { name := SERVICE_NAME ++ "-cluster" },
   Resource.taskDefinition (SERVICE_NAME ++ "-tf")
     { family := SERVICE_NAME,
       network_mode := "awsvpc",
       requires_compatibilities := ["FARGATE"],
       cpu := cfg.backend_cfg.cpu,
       memory := cfg.backend_cfg.memory,
       execution_role_arn := roles "ecs_execution_role",
       task_role_arn := roles "ecs_task_role",
       container_definitions := container_definitions_template cfg },
   Resource.service (SERVICE_NAME ++ "-service")
     { name := SERVICE_NAME ++ "-service",
       cluster := Ref.clusterId (SERVICE_NAME ++ "-cluster"),
       task_definition := Ref.taskDefArn (SERVICE_NAME ++ "-tf"),
       launch_type := "FARGATE",
       desired_count := cfg.backend_cfg.desired_count,
       network_configuration :=
         { subnets := nw.get_subnet_ids SubnetType.PRIVATE,
           security_groups := [ecs_sg],
           assign_public_ip := true },
       load_balancers :=
         [{ target_group_arn := django_tg,
            container_name := SERVICE_NAME,
            container_port := CONT_PORT }] }]

/-- `ECSService.create_resources` (lines 25-28): networking, then the data
store, then the runtime unit.  `self.ecs_sg` and `self.django_tg` are the
resources declared by `create_networking` under these logical names. -/
def create_resources (nw : Networking) (roles : String → String)
    (cfg : DjangoServiceCfg) : List Resource :=
  let ecs_sg := Ref.sgId (replaceUnderscore cfg.service_name ++ "-sg")
  let django_tg :=
    Ref.tgArn (replaceUnderscore cfg.service_name ++ "-service-tg")
  create_networking nw cfg ++ create_db ecs_sg cfg
    ++ create_ecs_service nw roles cfg ecs_sg django_tg

/-- Modelled from the spec: configuration validation ("malformed
configuration (non-positive ports, CPU/memory outside allowed resource-limit
pairs) should fail fast before any resource is declared").  The schema module
`input_schemas`, where `DjangoServiceCfg` is declared and validated, is not
under `src/`; the allowed CPU/memory resource-limit pairs are a parameter. -/
def validateCfg (allowed_pairs : List (Nat × Nat))
    (cfg : DjangoServiceCfg) : Bool :=
  decide (0 < cfg.backend_cfg.container_port
    ∧ 0 < cfg.backend_cfg.lb_port
    ∧ (cfg.backend_cfg.cpu, cfg.backend_cfg.memory) ∈ allowed_pairs)

/-- Modelled from the spec: `assemble(config, roles)` — validation first,
declaring resources only for a valid config ("reported immediately, abort
before declaring resources"). -/
def assemble (allowed_pairs : List (Nat × Nat)) (nw : Networking)
    (roles : String → String) (cfg : DjangoServiceCfg) :
    Except String (List Resource) :=
  if validateCfg allowed_pairs cfg then
    Except.ok (create_resources nw roles cfg)
  else
    Except.error "invalid service configuration"

/-- The security groups of a resource graph, with their logical names, in
declaration order. -/
def securityGroupsOf (g : List Resource) : List (String × SecurityGroupArgs) :=
  g.filterMap fun r =>
    match r with
    | Resource.securityGroup n a => some (n, a)
    | _ => none

/-- The target groups of a resource graph. -/
def targetGroupsOf (g : List Resource) : List (String × TargetGroupArgs) :=
  g.filterMap fun r =>
    match r with
    | Resource.targetGroup n a => some (n, a)
    | _ => none

/-- The listeners of a resource graph. -/
def listenersOf (g : List Resource) : List (String × ListenerArgs) :=
  g.filterMap fun r =>
    match r with
    | Resource.listener n a => some (n, a)
    | _ => none

/-- The task definitions of a resource graph. -/
def taskDefinitionsOf (g : List Resource) :
    List (String × TaskDefinitionArgs) :=
  g.filterMap fun r =>
    match r with
    | Resource.taskDefinition n a => some (n, a)
    | _ => none

/-- The ECS services of a resource graph. -/
def servicesOf (g : List Resource) : List (String × ServiceArgs) :=
  g.filterMap fun r =>
    match r with
    | Resource.service n a => some (n, a)
    | _ => none

/-- The image pushes of a resource graph:
(service name, django project, repository, version tag). -/
def imagePushesOf (g : List Resource) :
    List (String × String × Ref × String) :=
  g.filterMap fun r =>
    match r with
    | Resource.imagePush sn dp repo v => some (sn, dp, repo, v)
    | _ => none

/-- Logical names of the networking-family resources (security groups, load
balancer, target group, listener), in declaration order. -/
def networkingNames (g : List Resource) : List String :=
  g.filterMap fun r =>
    match r with
    | Resource.securityGroup n _ => some n
    | Resource.loadBalancer n _ => some n
    | Resource.targetGroup n _ => some n
    | Resource.listener n _ => some n
    | _ => none

/-- Logical names of the runtime-unit resources (repository, log group,
cluster, task definition, service), in declaration order. -/
def runtimeNames (g : List Resource) : List String :=
  g.filterMap fun r =>
    match r with
    | Resource.repository n => some n
    | Resource.logGroup n _ => some n
    | Resource.cluster n _ => some n
    | Resource.taskDefinition n _ => some n
    | Resource.service n _ => some n
    | _ => none

/-- The container entries of a container-definitions document. -/
def containerEntries (doc : JsonVal) : List JsonVal :=
  match doc with
  | JsonVal.arr es => es
  | _ => []

/-- First binding of a key in a JSON object's field list. -/
def lookupKV : List (String × JsonVal) → String → Option JsonVal
  | [], _ => none
  | (k, v) :: rest, key => if k = key then some v else lookupKV rest key

/-- Field of a JSON object. -/
def lookupField (j : JsonVal) (key : String) : Option JsonVal :=
  match j with
  | JsonVal.obj kvs => lookupKV kvs key
  | _ => none

/-- Field of the container entry of a single-container document (`none` if
the document is not a one-element list). -/
def firstContainerField (doc : JsonVal) (key : String) : Option JsonVal :=
  match containerEntries doc with
  | [e] => lookupField e key
  | _ => none

/-- A resource together with its provider-assigned physical identifier, as
recorded at apply time. -/
structure DeclaredResource where
  res : Resource
  provider_id : String

/-- One run of the assembler under a provider that assigns each declared
resource a physical identifier. -/
def run_assembler (assign : Resource → String) (nw : Networking)
    (roles : String → String) (cfg : DjangoServiceCfg) :
    List DeclaredResource :=
  (create_resources nw roles cfg).map fun r =>
    { res := r, provider_id := assign r }

/-- Mapping the underscore-to-hyphen substitution over a character list that
contains an underscore changes the list. -/
theorem mapRepl_ne (l : List Char) (h : '_' ∈ l) :
    l.map (fun c => if c = '_' then '-' else c) ≠ l := by
  induction l with
  | nil => cases h
  | cons a t ih =>
    intro he
    rw [List.map_cons, List.cons.injEq] at he
    rcases List.mem_cons.mp h with h1 | h1
    · rw [← h1] at he
      exact absurd he.1 (by decide)
    · exact ih h1 he.2

/-- A service name containing an underscore is changed by
`replaceUnderscore`. -/
theorem replaceUnderscore_ne (s : String) (h : '_' ∈ s.data) :
    replaceUnderscore s ≠ s := by
  intro he
  have hd : s.data.map (fun c => if c = '_' then '-' else c) = s.data :=
    congrArg String.data he
  exact mapRepl_ne s.data h hd

/-- Erasing the provider-assigned identifiers from a run recovers the
declared resource graph. -/
theorem map_res_of_assign (f : Resource → String) (L : List Resource) :
    (L.map fun r =>
      ({ res := r, provider_id := f r } : DeclaredResource)).map
        DeclaredResource.res = L := by
  induction L with
  | nil => rfl
  | cons a t ih => simp only [List.map_cons, ih]

/-- A valid sample configuration (service name with an underscore). -/
def cfgW : DjangoServiceCfg :=
  { service_name := "django_app", django_project := "django_app",
    backend_cfg :=
      { container_port := 8000, lb_port := 8080, cpu := 256,
        memory := 512, desired_count := 1 } }

/-- A sample network collaborator. -/
def nwW : Networking :=
  { vpc_id := "vpc-0",
    public_subnet_ids := ["subnet-pub-a", "subnet-pub-b"],
    private_subnet_ids := ["subnet-priv-a", "subnet-priv-b"] }

/-- A sample role mapping. -/
def rolesW : String → String :=
  fun role_name => "arn:aws:iam::role-" ++ role_name

/-- Claim C1: for every config with a non-positive port or a CPU/memory pair
outside the allowed resource-limit pairs, the assembler signals a validation
error instead of producing a resource graph, so no resource is declared. -/
theorem invalid_config_aborts_assembly (allowed_pairs : List (Nat × Nat))
    (nw : Networking) (roles : String → String) (cfg : DjangoServiceCfg)
    (h : cfg.backend_cfg.container_port ≤ 0 ∨ cfg.backend_cfg.lb_port ≤ 0
      ∨ (cfg.backend_cfg.cpu, cfg.backend_cfg.memory) ∉ allowed_pairs) :
    assemble allowed_pairs nw roles cfg
      = Except.error "invalid service configuration" := by
  have hv : validateCfg allowed_pairs cfg = false := by
    unfold validateCfg
    apply decide_eq_false
    rintro ⟨h1, h2, h3⟩
    rcases h with h4 | h4 | h4
    · exact absurd h1 (not_lt.mpr h4)
    · exact absurd h2 (not_lt.mpr h4)
    · exact h4 h3
  simp [assemble, hv]

/-- The allowed CPU/memory resource-limit pairs used by the C1 witness. -/
def allowedPairsW : List (Nat × Nat) :=
  [(256, 512), (512, 1024), (1024, 2048)]

/-- A malformed sample configuration: load-balancer port 0. -/
def cfgBadW : DjangoServiceCfg :=
  { service_name := "django_app", django_project := "django_app",
    backend_cfg :=
      { container_port := 8000, lb_port := 0, cpu := 256,
        memory := 512, desired_count := 1 } }

/-- Witness for C1 at a config whose load-balancer port is 0. -/
theorem invalid_config_aborts_assembly_witness :
    (cfgBadW.backend_cfg.container_port ≤ 0 ∨ cfgBadW.backend_cfg.lb_port ≤ 0
      ∨ (cfgBadW.backend_cfg.cpu, cfgBadW.backend_cfg.memory) ∉ allowedPairsW)
    ∧ assemble allowedPairsW nwW rolesW cfgBadW
      = Except.error "invalid service configuration" :=
  ⟨by decide,
   invalid_config_aborts_assembly allowedPairsW nwW rolesW cfgBadW (by decide)⟩

/-- Claim C2: the assembly declares exactly two security groups; the
load-balancer group's sole ingress rule admits `lb_port` from `0.0.0.0/0`
and its egress is all-traffic; the service group's sole ingress rule names
the load-balancer group as its only source (any port, protocol `-1`, no
CIDR), and its egress is all-traffic. -/
theorem security_perimeter_rules (cfg : DjangoServiceCfg) (nw : Networking)
    (roles : String → String) :
    ∃ lb_name lb_args svc_name svc_args,
      securityGroupsOf (create_resources nw roles cfg)
        = [(lb_name, lb_args), (svc_name, svc_args)]
      ∧ lb_args.ingress
        = [{ from_port := cfg.backend_cfg.lb_port,
             to_port := cfg.backend_cfg.lb_port, protocol := "tcp",
             cidr_blocks := ["0.0.0.0/0"], security_groups := [] }]
      ∧ lb_args.egress
        = [{ from_port := 0, to_port := 0, protocol := "-1",
             cidr_blocks := ["0.0.0.0/0"], security_groups := [] }]
      ∧ svc_args.ingress
        = [{ from_port := 0, to_port := 0, protocol := "-1",
             cidr_blocks := [], security_groups := [Ref.sgId lb_name] }]
      ∧ svc_args.egress
        = [{ from_port := 0, to_port := 0, protocol := "-1",
             cidr_blocks := ["0.0.0.0/0"], security_groups := [] }] :=
  ⟨_, _, _, _, rfl, rfl, rfl, rfl, rfl⟩

/-- Claim C3: at a state where the image reference, log-group name and
data-store host have resolved, the rendered container-definitions document
is a one-element list whose entry has cpu 10, memory 512, one port mapping
for `container_port`, command `[service_name, str(container_port)]`, exactly
the two environment entries `ENVIRONMENT=PROD` and `DB_HOST=<host>`, and
awslogs log configuration naming the log group, region `eu-west-1` and the
stream prefix derived from the service name. -/
theorem container_definitions_shape (cfg : DjangoServiceCfg)
    (img lg host : String) :
    ∃ entry,
      container_definitions_template cfg
        { image_uri := some img, log_group_name := some lg,
          db_host := some host }
        = some (JsonVal.arr [entry])
      ∧ lookupField entry "cpu" = some (JsonVal.num 10)
      ∧ lookupField entry "memory" = some (JsonVal.num 512)
      ∧ lookupField entry "portMappings"
        = some (JsonVal.arr
            [JsonVal.obj
              [("containerPort", JsonVal.num cfg.backend_cfg.container_port),
               ("protocol", JsonVal.str "tcp")]])
      ∧ lookupField entry "command"
        = some (JsonVal.arr
            [JsonVal.str cfg.service_name,
             JsonVal.str (toString cfg.backend_cfg.container_port)])
      ∧ lookupField entry "environment"
        = some (JsonVal.arr
            [JsonVal.obj
              [("name", JsonVal.str "ENVIRONMENT"),
               ("value", JsonVal.str "PROD")],
             JsonVal.obj
              [("name", JsonVal.str "DB_HOST"),
               ("value", JsonVal.str host)]])
      ∧ lookupField entry "logConfiguration"
        = some (JsonVal.obj
            [("logDriver", JsonVal.str "awslogs"),
             ("options", JsonVal.obj
               [("awslogs-group", JsonVal.str lg),
                ("awslogs-region", JsonVal.str "eu-west-1"),
                ("awslogs-stream-prefix",
                  JsonVal.str (cfg.service_name ++ "-log-stream"))])]) :=
  ⟨_, rfl, rfl, rfl, rfl, rfl, rfl, rfl⟩

/-- Claim C4: the container specification is the join of the asynchronously
resolved values; in any state where the image reference or the data-store
host is unresolved, no container spec is produced. -/
theorem container_spec_join_barrier (cfg : DjangoServiceCfg) (s : ResState)
    (h : s.image_uri = none ∨ s.db_host = none) :
    container_definitions_template cfg s = none := by
  rcases s with ⟨i, l, d⟩
  rcases h with h | h
  · have hi : i = none := h
    subst hi
    cases l <;> cases d <;> rfl
  · have hd : d = none := h
    subst hd
    cases i <;> cases l <;> rfl

/-- A half-resolved state: image reference pending, host resolved. -/
def stateHalfResolvedW : ResState :=
  { image_uri := none, log_group_name := some "/ecs/django_app",
    db_host := some "db.internal" }

/-- Witness for C4 at a state where only the data-store host resolved. -/
theorem container_spec_join_barrier_witness :
    (stateHalfResolvedW.image_uri = none ∨ stateHalfResolvedW.db_host = none)
    ∧ container_definitions_template cfgW stateHalfResolvedW = none :=
  ⟨Or.inl rfl,
   container_spec_join_barrier cfgW stateHalfResolvedW (Or.inl rfl)⟩

/-- Claim C5: the assembly declares exactly one target group, and its health
check is path `/ping/`, healthy threshold 5, unhealthy threshold 2, timeout
2, interval 5 and matcher `200`, whatever the configuration. -/
theorem health_check_fixed (cfg : DjangoServiceCfg) (nw : Networking)
    (roles : String → String) :
    ∃ tg_name tg_args,
      targetGroupsOf (create_resources nw roles cfg) = [(tg_name, tg_args)]
      ∧ tg_args.health_check
        = { path := "/ping/", port := "traffic-port", healthy_threshold := 5,
            unhealthy_threshold := 2, timeout := 2, interval := 5,
            matcher := "200" } :=
  ⟨_, _, rfl, rfl⟩

/-- Claim C6: the assembly declares exactly one listener; it listens on
`lb_port` and its only default action unconditionally forwards to the single
target group declared in the same assembly. -/
theorem listener_forwards_to_assembly_tg (cfg : DjangoServiceCfg)
    (nw : Networking) (roles : String → String) :
    ∃ tg_name tg_args lsn_name lsn_args,
      targetGroupsOf (create_resources nw roles cfg) = [(tg_name, tg_args)]
      ∧ listenersOf (create_resources nw roles cfg) = [(lsn_name, lsn_args)]
      ∧ lsn_args.port = cfg.backend_cfg.lb_port
      ∧ lsn_args.default_actions
        = [{ action_type := "forward",
             target_group_arn := Ref.tgArn tg_name }] :=
  ⟨_, _, _, _, rfl, rfl, rfl, rfl⟩

/-- Claim C7: the task definition requires FARGATE compatibility with network
mode awsvpc, CPU and memory from the config, and the execution and task role
references from the role mapping; the service resource takes its desired
count from the config, attaches to the private subnets and the service
security group with public IP assignment, and binds the assembly's target
group on `container_port`. -/
theorem task_definition_and_service_fields (cfg : DjangoServiceCfg)
    (nw : Networking) (roles : String → String) :
    ∃ lb_sg_name lb_sg_args svc_sg_name svc_sg_args tg_name tg_args
      td_name td_args srv_name srv_args,
      securityGroupsOf (create_resources nw roles cfg)
        = [(lb_sg_name, lb_sg_args), (svc_sg_name, svc_sg_args)]
      ∧ targetGroupsOf (create_resources nw roles cfg) = [(tg_name, tg_args)]
      ∧ taskDefinitionsOf (create_resources nw roles cfg)
        = [(td_name, td_args)]
      ∧ servicesOf (create_resources nw roles cfg) = [(srv_name, srv_args)]
      ∧ td_args.requires_compatibilities = ["FARGATE"]
      ∧ td_args.network_mode = "awsvpc"
      ∧ td_args.cpu = cfg.backend_cfg.cpu
      ∧ td_args.memory = cfg.backend_cfg.memory
      ∧ td_args.execution_role_arn = roles "ecs_execution_role"
      ∧ td_args.task_role_arn = roles "ecs_task_role"
      ∧ srv_args.desired_count = cfg.backend_cfg.desired_count
      ∧ srv_args.network_configuration
        = { subnets := nw.get_subnet_ids SubnetType.PRIVATE,
            security_groups := [Ref.sgId svc_sg_name],
            assign_public_ip := true }
      ∧ srv_args.load_balancers
        = [{ target_group_arn := Ref.tgArn tg_name,
             container_name := cfg.service_name,
             container_port := cfg.backend_cfg.container_port }] :=
  ⟨_, _, _, _, _, _, _, _, _, _,
   rfl, rfl, rfl, rfl, rfl, rfl, rfl, rfl, rfl, rfl, rfl, rfl, rfl⟩

/-- Claim C8: two runs of the assembler on the same configuration, networking
handles and roles declare structurally identical resource graphs (the same
logical names and field values), whatever physical identifiers the provider
assigns in each run. -/
theorem assembler_idempotent (assign1 assign2 : Resource → String)
    (nw : Networking) (roles : String → String) (cfg : DjangoServiceCfg) :
    (run_assembler assign1 nw roles cfg).map DeclaredResource.res
      = (run_assembler assign2 nw roles cfg).map DeclaredResource.res := by
  unfold run_assembler
  rw [map_res_of_assign, map_res_of_assign]

/-- Claim C9: the networking resources are named from the service name with
underscores replaced by hyphens, the runtime-unit resources and the container
name and command use the raw service name, and for a service name containing
an underscore the two families differ. -/
theorem naming_families_differ (cfg : DjangoServiceCfg) (nw : Networking)
    (roles : String → String) (img lg host : String)
    (h : '_' ∈ cfg.service_name.data) :
    networkingNames (create_resources nw roles cfg)
      = [replaceUnderscore cfg.service_name ++ "-lb-sg",
         replaceUnderscore cfg.service_name ++ "-sg",
         replaceUnderscore cfg.service_name ++ "-lb",
         replaceUnderscore cfg.service_name ++ "-service-tg",
         replaceUnderscore cfg.service_name ++ "-lb-listener"]
    ∧ runtimeNames (create_resources nw roles cfg)
      = [cfg.service_name ++ "-repository", cfg.service_name ++ "-log-group",
         cfg.service_name ++ "-cluster", cfg.service_name ++ "-tf",
         cfg.service_name ++ "-service"]
    ∧ firstContainerField (containerDefsJson cfg img lg host) "name"
      = some (JsonVal.str cfg.service_name)
    ∧ firstContainerField (containerDefsJson cfg img lg host) "command"
      = some (JsonVal.arr
          [JsonVal.str cfg.service_name,
           JsonVal.str (toString cfg.backend_cfg.container_port)])
    ∧ (replaceUnderscore cfg.service_name == cfg.service_name) = false := by
  refine ⟨rfl, rfl, rfl, rfl, ?_⟩
  cases hb : replaceUnderscore cfg.service_name == cfg.service_name
  · rfl
  · exact absurd (eq_of_beq hb) (replaceUnderscore_ne cfg.service_name h)

/-- Witness for C9 at the sample config, whose service name is
`django_app`. -/
theorem naming_families_differ_witness :
    ('_' ∈ cfgW.service_name.data)
    ∧ (networkingNames (create_resources nwW rolesW cfgW)
        = ["django-app-lb-sg", "django-app-sg", "django-app-lb",
           "django-app-service-tg", "django-app-lb-listener"]
      ∧ runtimeNames (create_resources nwW rolesW cfgW)
        = ["django_app-repository", "django_app-log-group",
           "django_app-cluster", "django_app-tf", "django_app-service"]
      ∧ firstContainerField (containerDefsJson cfgW "img" "lg" "db") "name"
        = some (JsonVal.str "django_app")
      ∧ firstContainerField (containerDefsJson cfgW "img" "lg" "db") "command"
        = some (JsonVal.arr [JsonVal.str "django_app", JsonVal.str "8000"])
      ∧ (replaceUnderscore cfgW.service_name == cfgW.service_name) = false) :=
  ⟨by decide, naming_families_differ cfgW nwW rolesW "img" "lg" "db" (by decide)⟩

/-- Claim C10: the assembly performs exactly one image push, and its version
tag is the fixed string `0.0.1`, whatever the configuration. -/
theorem image_version_fixed (cfg : DjangoServiceCfg) (nw : Networking)
    (roles : String → String) :
    imagePushesOf (create_resources nw roles cfg)
      = [(cfg.service_name, cfg.django_project,
          Ref.repoRef (cfg.service_name ++ "-repository"), "0.0.1")] :=
  rfl
